import Mathlib

/-!
# Verification of the profile-provisioning logic

Shallow embedding of the user-profile provisioning code of the
LinkedIn-scraper repository:

* `get_or_create_user_profile(text)` from
  `supabase/migrations/20250629090643_stark_coral.sql` (lines 196-256),
  the Clerk/JWT variant that is actually called by the client wrapper;
* the trigger function `handle_new_user()` from the auth-based migration
  (`unnamed/part_000`, lines 31-128), with its bounded username-retry loop;
* the client wrapper `getUserProfile` from `src/lib/supabase-clerk.ts`
  (lines 113-132).

The `public.users` table is modelled as a list of rows plus a counter
supplying fresh system-generated ids.  SQL `NULL`-able text values are
`Option String`; an `INSERT` is modelled by `insertUser`, which enforces the
`NOT NULL` constraint on `username` and the three unique constraints
(`auth_user_id`, `username`, `email`) exactly as declared in the schema,
reporting which column was violated (Postgres checks NOT NULL before unique
constraints; the relative order of the unique-index checks is fixed here
arbitrarily — none of the code under scrutiny distinguishes it).
-/

set_option autoImplicit false

namespace Provision

instance {ε α : Type} [DecidableEq ε] [DecidableEq α] : DecidableEq (Except ε α)
  | .ok a, .ok b => decidable_of_iff (a = b) (by simp)
  | .error a, .error b => decidable_of_iff (a = b) (by simp)
  | .ok _, .error _ => .isFalse (by simp)
  | .error _, .ok _ => .isFalse (by simp)

/-- SQL `lower(s)` (ASCII case folding; the usernames involved are ASCII). -/
def lowerStr (s : String) : String :=
  ⟨s.data.map Char.toLower⟩

/-- SQL `replace(s, ' ', '_')`: every space becomes an underscore. -/
def underscoreSpaces (s : String) : String :=
  ⟨s.data.map fun c => if c = ' ' then '_' else c⟩

/-- SQL `replace(s, '-', '')`: every hyphen is removed. -/
def stripHyphens (s : String) : String :=
  ⟨s.data.filter fun c => c != '-'⟩

/-- SQL `trim(s)` (`btrim` with its default character set: spaces are
removed from both ends). -/
def trimSpaces (s : String) : String :=
  ⟨((s.data.dropWhile fun c => c == ' ').reverse.dropWhile fun c => c == ' ').reverse⟩

/-- Fields of a character list split on the separator `sep`
(always at least one field, as for SQL `split_part`). -/
def splitFieldsAux (sep : Char) : List Char → List Char → List (List Char)
  | acc, [] => [acc.reverse]
  | acc, c :: cs =>
    if c = sep then acc.reverse :: splitFieldsAux sep [] cs
    else splitFieldsAux sep (c :: acc) cs

/-- SQL `split_part(s, sep, n)` for a one-character separator: `n`-th field
(1-based) of `s` split on `sep`; empty string when `n` exceeds the number of
fields.  The code only uses `split_part(email, '@', 1)`, the local part of
an email. -/
def splitPart (s : String) (sep : Char) (n : Nat) : String :=
  ⟨(splitFieldsAux sep [] s.data).getD (n - 1) []⟩

/-- SQL `NULLIF(trim(x), '')` applied to a nullable text value: trims and
turns empty results into NULL. -/
def nullifTrim (o : Option String) : Option String :=
  o.bind fun s => if trimSpaces s = "" then none else some (trimSpaces s)

/-- A row of `public.users`: `id uuid PRIMARY KEY DEFAULT gen_random_uuid()`
is modelled as a `Nat` drawn from the store's fresh-id counter;
`auth_user_id`, `username`, `email` are `NOT NULL`, `full_name` is nullable;
timestamps are abstract instants (`Nat`). -/
structure Row where
  id : Nat
  auth_user_id : String
  username : String
  email : String
  full_name : Option String
  created_at : Nat
  updated_at : Nat
  deriving DecidableEq, Repr

/-- The `public.users` table plus the generator state for fresh row ids. -/
structure Store where
  rows : List Row
  nextId : Nat
  deriving DecidableEq, Repr

/-- The unique-constrained columns of `public.users`. -/
inductive UniqueCol where
  | authUserId
  | usernameCol
  | emailCol
  deriving DecidableEq, Repr

/-- Errors an `INSERT` into `public.users` can raise: `not_null_violation`
(SQLSTATE 23502) on `username`, or `unique_violation` (23505) naming the
violated column. -/
inductive DbError where
  | notNullViolation
  | uniqueViolation (col : UniqueCol)
  deriving DecidableEq, Repr

/-- SQL `SELECT * FROM public.users WHERE auth_user_id = a` (unique column, so
at most one row; `find?` returns the first and only match). -/
def findUser (rows : List Row) (a : String) : Option Row :=
  rows.find? fun r => r.auth_user_id == a

/-- SQL `INSERT INTO public.users (auth_user_id, username, email, full_name, ...)`.
Enforces `username NOT NULL` and the unique constraints on `auth_user_id`,
`username` and `email`; on success returns the inserted row (as
`RETURNING *` does) and the updated table. -/
def insertUser (s : Store) (auth : String) (uname : Option String)
    (email : String) (fullName : Option String) (now : Nat) :
    Except DbError (Row × Store) :=
  match uname with
  | none => .error .notNullViolation
  | some u =>
    if s.rows.any fun r => r.auth_user_id == auth then
      .error (.uniqueViolation .authUserId)
    else if s.rows.any fun r => r.username == u then
      .error (.uniqueViolation .usernameCol)
    else if s.rows.any fun r => r.email == email then
      .error (.uniqueViolation .emailCol)
    else
      let r : Row :=
        { id := s.nextId, auth_user_id := auth, username := u, email := email
          full_name := fullName, created_at := now, updated_at := now }
      .ok (r, { rows := s.rows ++ [r], nextId := s.nextId + 1 })

/-! ## `get_or_create_user_profile(text)` (stark_coral migration) -/

/-- The JWT claims the stark_coral function reads via `auth.jwt() ->> _`:
`email`, `given_name`, `family_name`, `name`.  (It reads no username
claim.)  Each may be absent (SQL NULL). -/
structure JwtClaims where
  email : Option String
  given_name : Option String
  family_name : Option String
  name : Option String
  deriving DecidableEq, Repr

/-- The `_full_name` fallback chain of `get_or_create_user_profile` (migration
lines 220-229): keep `name` when non-null and non-empty; else first+last when
both non-null; else first when non-null; else `split_part(_email, '@', 1)`
(NULL when `_email` is NULL).  Note: the SQL tests `given_name`/`family_name`
only with `IS NOT NULL` (no emptiness check), and has no `family_name`-alone
branch. -/
def starkFullName (jwt : JwtClaims) : Option String :=
  if jwt.name = none ∨ jwt.name = some "" then
    match jwt.given_name, jwt.family_name with
    | some f, some l => some (f ++ " " ++ l)
    | some f, none => some f
    | none, _ => jwt.email.map fun e => splitPart e '@' 1
  else jwt.name

/-- SQL `_username := lower(replace(COALESCE(_full_name, split_part(_email,'@',1)), ' ', '_'))`
(migration lines 231-232), NULL when both arguments of the COALESCE are NULL. -/
def starkSeed (jwt : JwtClaims) : Option String :=
  let coalesced : Option String :=
    match starkFullName jwt with
    | some v => some v
    | none => jwt.email.map fun e => splitPart e '@' 1
  coalesced.map fun s => lowerStr (underscoreSpaces s)

/-- The `WHILE EXISTS (... username = _username) LOOP _username := _username
|| '_' || floor(random() * 1000)::text` loop (migration lines 235-237),
with the random source supplied as a stream `rng` (values taken mod 1000 as
`floor(random()*1000)` is in `0..999`).  Each iteration strictly lengthens
the candidate, so in SQL the loop always leaves the finite table behind;
here it carries fuel, and the caller passes `rows.length + 1`, which by
pigeonhole (the candidates are pairwise distinct) always suffices. -/
def uniquifyUsername (rows : List Row) (rng : Nat → Nat) :
    Nat → Nat → String → Option String
  | 0, _, _ => none
  | fuel + 1, i, u =>
    if rows.any fun r => r.username == u then
      uniquifyUsername rows rng fuel (i + 1) (u ++ "_" ++ toString (rng i % 1000))
    else some u

/-- The SQL function `public.get_or_create_user_profile(user_auth_id text)` from the
stark_coral migration (lines 196-256): look the profile up by
`auth_user_id`; when absent, derive `_full_name`, `_username` and the email
(`COALESCE(_email, user_auth_id || '@clerk.local')`) from the JWT claims and
insert, returning the new row.  `rng` feeds the username-collision loop,
`now` the row timestamps. -/
def get_or_create_user_profile (s : Store) (user_auth_id : String)
    (jwt : JwtClaims) (rng : Nat → Nat) (now : Nat) :
    Except DbError (Row × Store) :=
  match findUser s.rows user_auth_id with
  | some r => .ok (r, s)
  | none =>
    let fullName := starkFullName jwt
    let uname :=
      match starkSeed jwt with
      | none => none
      | some u => uniquifyUsername s.rows rng (s.rows.length + 1) 0 u
    let email := jwt.email.getD (user_auth_id ++ "@clerk.local")
    insertUser s user_auth_id uname email fullName now

/-! ## `handle_new_user()` trigger (`unnamed/part_000`, lines 31-128) -/

/-- The fields of `raw_user_meta_data` that `handle_new_user` reads. -/
structure UserMeta where
  username : Option String
  full_name : Option String
  first_name : Option String
  last_name : Option String
  deriving DecidableEq, Repr

/-- The `NEW` row of `auth.users` the trigger fires on: `id` is the auth
user's uuid (kept as its text form, since the code only uses `NEW.id::text`),
`email` is non-null in `auth.users`, `raw_user_meta_data` may be NULL. -/
structure AuthUser where
  id : String
  email : String
  meta : Option UserMeta
  deriving DecidableEq, Repr

/-- What one run of `handle_new_user` did: the resulting table (or the
propagated error), the candidate usernames attempted by inserts inside the
`WHILE` loop in order, and the username of the final unconditional fallback
insert when one was made. -/
structure TriggerOutcome where
  result : Except DbError Store
  loopAttempts : List String
  fallbackAttempt : Option String
  deriving DecidableEq, Repr

/-- SQL `_max_attempts integer := 10` (trigger, line 41). -/
def maxAttempts : Nat := 10

/-- The `_full_name` construction inside the loop body (trigger lines
74-85): once non-null it is kept; otherwise first+last when both non-null,
else first, else last, else the email local part.  (The loop re-runs this
block each iteration, but the `IS NULL` guard makes every re-run a no-op.) -/
def triggerFullName (fn first last : Option String) (emailLocal : String) :
    Option String :=
  match fn with
  | some v => some v
  | none =>
    match first, last with
    | some f, some l => some (f ++ " " ++ l)
    | some f, none => some f
    | none, some l => some l
    | none, none => some emailLocal

/-- The `_unique_suffix` of an attempt (trigger lines 66-72): empty on the
first attempt, and `'-' || substring(NEW.id::text from 1 for 8) || '-' ||
_attempt_count::text` on retries. -/
def usernameSuffix (newId : String) (attempt : Nat) : String :=
  if attempt = 0 then ""
  else "-" ++ newId.take 8 ++ "-" ++ toString attempt

/-- The `WHILE _attempt_count < _max_attempts` retry loop of
`handle_new_user` (trigger lines 63-123).  `gas` is the number of loop
iterations still allowed (`_max_attempts - _attempt_count`, so the `gas = 0`
case is the loop condition failing); `attempt` is `_attempt_count`.  Each
iteration builds the suffix, (re-)derives `_full_name`, and attempts the
insert; `unique_violation` on ANY column bumps the counter and either
retries or — once the counter reaches the maximum — performs the one
unconditional fallback insert whose own failure propagates; any other
error propagates immediately (`WHEN OTHERS THEN RAISE`). -/
def triggerLoop (rows : List Row) (nextId : Nat) (newId email uname emailLocal : String)
    (first last : Option String) (now : Nat) :
    Option String → Nat → Nat → TriggerOutcome
  | _, _, 0 =>
    { result := .ok ⟨rows, nextId⟩, loopAttempts := [], fallbackAttempt := none }
  | fn, attempt, gas + 1 =>
    let suffix := usernameSuffix newId attempt
    let fn' := triggerFullName fn first last emailLocal
    let cand := uname ++ suffix
    match insertUser ⟨rows, nextId⟩ newId (some cand) email fn' now with
    | .ok (_, s') =>
      { result := .ok s', loopAttempts := [cand], fallbackAttempt := none }
    | .error (.uniqueViolation _) =>
      if attempt + 1 ≥ maxAttempts then
        let fallbackName := emailLocal ++ "-" ++ stripHyphens newId
        match insertUser ⟨rows, nextId⟩ newId (some fallbackName) email fn' now with
        | .ok (_, s') =>
          { result := .ok s', loopAttempts := [cand], fallbackAttempt := some fallbackName }
        | .error e =>
          { result := .error e, loopAttempts := [cand], fallbackAttempt := some fallbackName }
      else
        let rest := triggerLoop rows nextId newId email uname emailLocal
          first last now fn' (attempt + 1) gas
        { result := rest.result, loopAttempts := cand :: rest.loopAttempts,
          fallbackAttempt := rest.fallbackAttempt }
    | .error e =>
      { result := .error e, loopAttempts := [cand], fallbackAttempt := none }

/-- The username seed of `handle_new_user` (trigger lines 51 and 57-60):
`NULLIF(trim(raw_user_meta_data->>'username'), '')`, falling back to
`split_part(NEW.email, '@', 1)` when NULL. -/
def triggerSeed (nu : AuthUser) : String :=
  ((nu.meta.bind fun m => nullifTrim m.username).getD (splitPart nu.email '@' 1))

/-- The trigger function `public.handle_new_user()` (`unnamed/part_000`, lines 31-128): fired
after an insert into `auth.users`, it provisions the matching
`public.users` row with the bounded username-retry loop. -/
def handle_new_user (s : Store) (nu : AuthUser) (now : Nat) : TriggerOutcome :=
  let emailLocal := splitPart nu.email '@' 1
  let fn0 := nu.meta.bind fun m => nullifTrim m.full_name
  let first0 := nu.meta.bind fun m => nullifTrim m.first_name
  let last0 := nu.meta.bind fun m => nullifTrim m.last_name
  triggerLoop s.rows s.nextId nu.id nu.email (triggerSeed nu) emailLocal
    first0 last0 now fn0 0 maxAttempts

/-! ## `getUserProfile` (`src/lib/supabase-clerk.ts`, lines 113-132) -/

/-- The `User` interface of `supabase-clerk.ts` (timestamps are the JSON
strings the API returns). -/
structure TsUser where
  id : String
  auth_user_id : String
  username : String
  email : String
  full_name : Option String
  created_at : String
  updated_at : String
  deriving DecidableEq, Repr

/-- What awaiting `supabase.rpc('get_or_create_user_profile', ...)` can do,
as observed by `getUserProfile`: resolve to a `{ data, error }` pair (the
`Bool` is whether `error` is non-null), or throw (carrying a message). -/
def RpcOutcome : Type := Except String (Option TsUser × Bool)

/-- The wrapper `getUserProfile` (`supabase-clerk.ts` lines 113-132): the `try` body
returns `null` when the RPC reported an error and `data` otherwise; the
`catch` block maps any thrown exception to `null`.  The result type keeps
the exception channel (`Except String _`) so that "never throws" is a
statement, not a typing accident. -/
def getUserProfile (resp : RpcOutcome) : Except String (Option TsUser) :=
  let body : Except String (Option TsUser) := do
    let (data, error) ← resp
    if error then pure none else pure data
  match body with
  | .ok v => .ok v
  | .error _ => .ok none

end Provision

namespace Provision

/-! ## Helper lemmas -/

theorem insertUser_ok_inv {s : Store} {auth : String} {uname : Option String}
    {email : String} {fullName : Option String} {now : Nat} {r : Row} {s' : Store}
    (h : insertUser s auth uname email fullName now = .ok (r, s')) :
    uname = some r.username ∧
    r = { id := s.nextId, auth_user_id := auth, username := r.username,
          email := email, full_name := fullName, created_at := now,
          updated_at := now } ∧
    s' = { rows := s.rows ++ [r], nextId := s.nextId + 1 } ∧
    (s.rows.any fun x => x.auth_user_id == auth) = false := by
  match huname : uname with
  | none => simp [insertUser, huname] at h
  | some u =>
    rw [insertUser] at h
    split_ifs at h with h1 h2 h3
    injection h with h
    injection h with hr hs
    subst hr
    subst hs
    simp [h1]

theorem findUser_append_self {rows : List Row} {a : String} {r : Row}
    (hnone : findUser rows a = none) (hr : r.auth_user_id = a) :
    findUser (rows ++ [r]) a = some r := by
  rw [findUser] at hnone ⊢
  rw [List.find?_append, hnone]
  simp [List.find?, hr]

theorem get_or_create_ok_inv {s : Store} {a : String} {jwt : JwtClaims}
    {rng : Nat → Nat} {now : Nat} {p : Row} {s₁ : Store}
    (hf : findUser s.rows a = none)
    (h : get_or_create_user_profile s a jwt rng now = .ok (p, s₁)) :
    p.auth_user_id = a ∧
    p.email = jwt.email.getD (a ++ "@clerk.local") ∧
    p.full_name = starkFullName jwt ∧
    p.id = s.nextId ∧
    s₁ = { rows := s.rows ++ [p], nextId := s.nextId + 1 } := by
  rw [get_or_create_user_profile, hf] at h
  have := insertUser_ok_inv h
  obtain ⟨-, hp, hs, -⟩ := this
  refine ⟨?_, ?_, ?_, ?_, hs⟩ <;> rw [hp]

theorem triggerLoop_length_le (rows : List Row) (nextId : Nat)
    (newId email uname emailLocal : String) (first last : Option String) (now : Nat) :
    ∀ (gas : Nat) (fn : Option String) (attempt : Nat),
    (triggerLoop rows nextId newId email uname emailLocal first last now
      fn attempt gas).loopAttempts.length ≤ gas ∧
    (triggerLoop rows nextId newId email uname emailLocal first last now
      fn attempt gas).fallbackAttempt.toList.length ≤ 1 := by
  intro gas
  induction gas with
  | zero => intro fn attempt; simp [triggerLoop]
  | succ g ih =>
    intro fn attempt
    simp only [triggerLoop]
    split
    · simp
    · split
      · split <;> simp
      · have h := ih (triggerFullName fn first last emailLocal) (attempt + 1)
        refine ⟨?_, h.2⟩
        simpa using Nat.succ_le_succ h.1
    · simp

theorem triggerLoop_head (rows : List Row) (nextId : Nat)
    (newId email uname emailLocal : String) (first last : Option String) (now : Nat)
    (gas : Nat) (fn : Option String) (attempt : Nat) :
    (triggerLoop rows nextId newId email uname emailLocal first last now
      fn attempt (gas + 1)).loopAttempts.head? =
    some (uname ++ usernameSuffix newId attempt) := by
  simp only [triggerLoop]
  split
  · simp
  · split
    · split <;> simp
    · simp
  · simp

theorem triggerLoop_fallback_name (rows : List Row) (nextId : Nat)
    (newId email uname emailLocal : String) (first last : Option String) (now : Nat) :
    ∀ (gas : Nat) (fn : Option String) (attempt : Nat) (u : String),
    (triggerLoop rows nextId newId email uname emailLocal first last now
      fn attempt gas).fallbackAttempt = some u →
    u = emailLocal ++ "-" ++ stripHyphens newId := by
  intro gas
  induction gas with
  | zero => intro fn attempt u h; simp [triggerLoop] at h
  | succ g ih =>
    intro fn attempt u h
    simp only [triggerLoop] at h
    split at h
    · simp at h
    · split at h
      · split at h <;> (simp at h; exact h.symm)
      · exact ih (triggerFullName fn first last emailLocal) (attempt + 1) u h
    · simp at h

theorem triggerLoop_unique_error_fallback (rows : List Row) (nextId : Nat)
    (newId email uname emailLocal : String) (first last : Option String) (now : Nat)
    (col : UniqueCol) :
    ∀ (gas : Nat) (fn : Option String) (attempt : Nat),
    (triggerLoop rows nextId newId email uname emailLocal first last now
      fn attempt gas).result = .error (.uniqueViolation col) →
    (triggerLoop rows nextId newId email uname emailLocal first last now
      fn attempt gas).fallbackAttempt.isSome = true := by
  intro gas
  induction gas with
  | zero => intro fn attempt h; simp [triggerLoop] at h
  | succ g ih =>
    intro fn attempt h
    simp only [triggerLoop] at h ⊢
    split at h
    · simp at h
    · next c hins =>
      split at h
      · next hge =>
        simp only [hins, if_pos hge]
        split <;> simp
      · next hlt =>
        simp only [hins, if_neg hlt]
        simpa using ih (triggerFullName fn first last emailLocal) (attempt + 1) h
    · next e hne _ =>
      simp only at h
      injection h with h
      exact absurd h (hne col)

theorem triggerLoop_fallback_exhausts (rows : List Row) (nextId : Nat)
    (newId email uname emailLocal : String) (first last : Option String) (now : Nat) :
    ∀ (gas : Nat) (fn : Option String) (attempt : Nat),
    attempt + gas = maxAttempts →
    (triggerLoop rows nextId newId email uname emailLocal first last now
      fn attempt gas).fallbackAttempt.isSome = true →
    (triggerLoop rows nextId newId email uname emailLocal first last now
      fn attempt gas).loopAttempts.length = gas := by
  intro gas
  induction gas with
  | zero => intro fn attempt _ h; simp [triggerLoop] at h
  | succ g ih =>
    intro fn attempt hsum h
    simp only [triggerLoop] at h ⊢
    split at h
    · simp at h
    · next c hins =>
      split at h
      · next hge =>
        have hg : g = 0 := by
          rw [maxAttempts] at hsum hge
          omega
        subst hg
        simp only [hins, if_pos hge]
        split <;> simp
      · next hlt =>
        simp only [hins, if_neg hlt]
        simpa using ih (triggerFullName fn first last emailLocal) (attempt + 1)
          (by omega) h
    · simp at h

/-! ## Claims -/

/-- Claim C9: if a profile row already exists for the given `auth_user_id`,
`get_or_create_user_profile` returns exactly that row and leaves the store
(table contents and id generator) untouched: the call is a pure read. -/
theorem C9_read_path_is_pure (s : Store) (a : String) (jwt : JwtClaims)
    (rng : Nat → Nat) (now : Nat) (r : Row)
    (h : findUser s.rows a = some r) :
    get_or_create_user_profile s a jwt rng now = .ok (r, s) := by
  rw [get_or_create_user_profile, h]

/-- Witness for C9: a store holding one row for `"sub_1"`; the call returns
it and the store unchanged. -/
theorem C9_read_path_is_pure_witness :
    get_or_create_user_profile
      ⟨[{ id := 0, auth_user_id := "sub_1", username := "jane", email := "jane@x.com",
          full_name := some "Jane", created_at := 1, updated_at := 2 }], 1⟩
      "sub_1" ⟨none, none, none, none⟩ (fun _ => 0) 9 =
    .ok ({ id := 0, auth_user_id := "sub_1", username := "jane", email := "jane@x.com",
           full_name := some "Jane", created_at := 1, updated_at := 2 },
         ⟨[{ id := 0, auth_user_id := "sub_1", username := "jane", email := "jane@x.com",
             full_name := some "Jane", created_at := 1, updated_at := 2 }], 1⟩) :=
  C9_read_path_is_pure _ "sub_1" ⟨none, none, none, none⟩ (fun _ => 0) 9 _ (by decide)

/-- Claim C1: provisioning is idempotent.  If a first call to
`get_or_create_user_profile` (for a non-empty subject id, any claims bag)
succeeds with profile `p` and store `s₁`, then an immediately following call
with the same subject id returns the very same row `p` (hence the same `id`)
and leaves `s₁` untouched, and it does so through the read path: the lookup
by `auth_user_id` now finds `p`, so no insert is attempted. -/
theorem C1_getOrCreate_idempotent (s : Store) (a : String) (jwt jwt₂ : JwtClaims)
    (rng rng₂ : Nat → Nat) (now now₂ : Nat) (p : Row) (s₁ : Store)
    (_hne : a ≠ "")
    (h : get_or_create_user_profile s a jwt rng now = .ok (p, s₁)) :
    findUser s₁.rows a = some p ∧
    get_or_create_user_profile s₁ a jwt₂ rng₂ now₂ = .ok (p, s₁) := by
  cases hf : findUser s.rows a with
  | some r =>
    rw [get_or_create_user_profile, hf] at h
    injection h with h
    injection h with hp hs
    subst hp
    subst hs
    exact ⟨hf, by rw [get_or_create_user_profile, hf]⟩
  | none =>
    obtain ⟨hauth, -, -, -, hs⟩ := get_or_create_ok_inv hf h
    have hfind : findUser s₁.rows a = some p := by
      rw [hs]
      exact findUser_append_self hf hauth
    exact ⟨hfind, by rw [get_or_create_user_profile, hfind]⟩

/-- Witness for C1: a first call on the empty store creates the profile;
the theorem then yields the second call's read-path result. -/
theorem C1_getOrCreate_idempotent_witness :
    findUser
      [{ id := 0, auth_user_id := "sub_1", username := "jane_doe", email := "jane@x.com",
         full_name := some "Jane Doe", created_at := 5, updated_at := 5 }] "sub_1" =
      some { id := 0, auth_user_id := "sub_1", username := "jane_doe", email := "jane@x.com",
             full_name := some "Jane Doe", created_at := 5, updated_at := 5 } ∧
    get_or_create_user_profile
      ⟨[{ id := 0, auth_user_id := "sub_1", username := "jane_doe", email := "jane@x.com",
          full_name := some "Jane Doe", created_at := 5, updated_at := 5 }], 1⟩
      "sub_1" ⟨some "jane@x.com", none, none, some "Jane Doe"⟩ (fun _ => 1) 7 =
    .ok ({ id := 0, auth_user_id := "sub_1", username := "jane_doe", email := "jane@x.com",
           full_name := some "Jane Doe", created_at := 5, updated_at := 5 },
         ⟨[{ id := 0, auth_user_id := "sub_1", username := "jane_doe", email := "jane@x.com",
             full_name := some "Jane Doe", created_at := 5, updated_at := 5 }], 1⟩) :=
  C1_getOrCreate_idempotent ⟨[], 0⟩ "sub_1"
    ⟨some "jane@x.com", none, none, some "Jane Doe"⟩
    ⟨some "jane@x.com", none, none, some "Jane Doe"⟩
    (fun _ => 0) (fun _ => 1) 5 7
    { id := 0, auth_user_id := "sub_1", username := "jane_doe", email := "jane@x.com",
      full_name := some "Jane Doe", created_at := 5, updated_at := 5 }
    ⟨[{ id := 0, auth_user_id := "sub_1", username := "jane_doe", email := "jane@x.com",
        full_name := some "Jane Doe", created_at := 5, updated_at := 5 }], 1⟩
    (by decide) (by decide)

/-- Claim C7: when no profile exists yet and the claims bag carries no email,
the created profile's email is exactly `<subjectId>@clerk.local` — non-null
(the model's email field is total), a deterministic function of the subject
id, and containing it as a prefix. -/
theorem C7_placeholder_email (s : Store) (a : String) (jwt : JwtClaims)
    (rng : Nat → Nat) (now : Nat) (p : Row) (s₁ : Store)
    (hemail : jwt.email = none)
    (hf : findUser s.rows a = none)
    (h : get_or_create_user_profile s a jwt rng now = .ok (p, s₁)) :
    p.email = a ++ "@clerk.local" ∧ ∃ rest, p.email = a ++ rest := by
  obtain ⟨-, he, -, -, -⟩ := get_or_create_ok_inv hf h
  rw [hemail] at he
  exact ⟨he, "@clerk.local", he⟩

/-- Witness for C7: an email-less claims bag with a full name; the created
row's email is the placeholder built from the subject id. -/
theorem C7_placeholder_email_witness :
    ({ id := 0, auth_user_id := "sub_7", username := "jane_doe",
       email := "sub_7@clerk.local", full_name := some "Jane Doe",
       created_at := 4, updated_at := 4 } : Row).email = "sub_7" ++ "@clerk.local" ∧
    ∃ rest,
      ({ id := 0, auth_user_id := "sub_7", username := "jane_doe",
         email := "sub_7@clerk.local", full_name := some "Jane Doe",
         created_at := 4, updated_at := 4 } : Row).email = "sub_7" ++ rest :=
  C7_placeholder_email ⟨[], 0⟩ "sub_7" ⟨none, none, none, some "Jane Doe"⟩
    (fun _ => 0) 4
    { id := 0, auth_user_id := "sub_7", username := "jane_doe",
      email := "sub_7@clerk.local", full_name := some "Jane Doe",
      created_at := 4, updated_at := 4 }
    ⟨[{ id := 0, auth_user_id := "sub_7", username := "jane_doe",
        email := "sub_7@clerk.local", full_name := some "Jane Doe",
        created_at := 4, updated_at := 4 }], 1⟩
    (by decide) (by decide) (by decide)

/-- Claim C8 (code bug): for the spec's scenario — empty claims bag, subject id
`"sub_123"`, no existing row — the code does NOT create a profile at all.
With a NULL JWT email, `split_part(NULL, '@', 1)` is NULL, so `_full_name`
and `_username` are both NULL and the `INSERT` dies on the `NOT NULL`
constraint of `username`; the synthesized `sub_123@clerk.local` email never
reaches the table and `displayName` is NULL rather than the placeholder's
local part. -/
theorem C8_empty_claims_crashes :
    get_or_create_user_profile ⟨[], 0⟩ "sub_123" ⟨none, none, none, none⟩
      (fun _ => 0) 0 = .error .notNullViolation ∧
    starkFullName ⟨none, none, none, none⟩ = none ∧
    starkSeed ⟨none, none, none, none⟩ = none := by
  decide

/-- One unrolling of the retry loop from a fresh call (`attempt = 0`) with
at least two iterations of gas: whenever a second insert was attempted at
all, its candidate username was the seed plus the attempt-1 suffix. -/
theorem triggerLoop_second_attempt (rows : List Row) (nextId : Nat)
    (newId email uname emailLocal : String) (first last : Option String)
    (now : Nat) (g : Nat) (fn : Option String)
    (h2 : 2 ≤ (triggerLoop rows nextId newId email uname emailLocal first last now
      fn 0 (g + 1 + 1)).loopAttempts.length) :
    (triggerLoop rows nextId newId email uname emailLocal first last now
      fn 0 (g + 1 + 1)).loopAttempts[1]? =
    some (uname ++ usernameSuffix newId 1) := by
  simp only [triggerLoop] at h2 ⊢
  split at h2
  · simp at h2
  · next c hins =>
    split at h2
    · next hge => exact absurd hge (by decide)
    · next hlt =>
      simp only [hins, if_neg hlt]
      have hcons :
          ∀ (x : String) (l : List String), (x :: l)[1]? = l.head? := by
        intro x l; cases l <;> simp
      rw [hcons]
      split
      · simp
      · split
        · split <;> simp
        · simp
      · simp
  · simp at h2

/-- Claim C4: the username-collision retry loop of `handle_new_user` is
bounded: no run attempts more than `maxAttempts = 10` inserts inside the
loop, and with the single fallback insert the total number of insert
attempts never exceeds 11.  (The model is a structurally recursive — hence
terminating — function, mirroring the loop's strictly decreasing
`_max_attempts - _attempt_count`.) -/
theorem C4_retry_loop_bounded (s : Store) (nu : AuthUser) (now : Nat) :
    (handle_new_user s nu now).loopAttempts.length ≤ maxAttempts ∧
    (handle_new_user s nu now).loopAttempts.length +
      (handle_new_user s nu now).fallbackAttempt.toList.length ≤ maxAttempts + 1 := by
  simp only [handle_new_user]
  have h := triggerLoop_length_le s.rows s.nextId nu.id nu.email (triggerSeed nu)
    (splitPart nu.email '@' 1)
    (nu.meta.bind fun m => nullifTrim m.first_name)
    (nu.meta.bind fun m => nullifTrim m.last_name) now maxAttempts
    (nu.meta.bind fun m => nullifTrim m.full_name) 0
  exact ⟨h.1, by omega⟩

/-- Claim C3 counterexample: a store whose only row shares the new user's
email (`a@x.com`) but neither its subject id nor any username the loop can
generate.  The claim says an email-column uniqueness violation is never
retried; the code instead runs all 10 loop attempts plus the fallback insert
(11 inserts total) before the email violation finally propagates — the
stored username `zzz` never even collides with a candidate. -/
theorem C3_counterexample :
    (handle_new_user
        ⟨[⟨0, "other", "zzz", "a@x.com", none, 0, 0⟩], 1⟩
        ⟨"11111111-2222-3333-4444-555555555555", "a@x.com",
         some ⟨some "bob", none, none, none⟩⟩ 3).loopAttempts.length = 10 ∧
    (handle_new_user
        ⟨[⟨0, "other", "zzz", "a@x.com", none, 0, 0⟩], 1⟩
        ⟨"11111111-2222-3333-4444-555555555555", "a@x.com",
         some ⟨some "bob", none, none, none⟩⟩ 3).fallbackAttempt =
      some "a-11111111222233334444555555555555" ∧
    (handle_new_user
        ⟨[⟨0, "other", "zzz", "a@x.com", none, 0, 0⟩], 1⟩
        ⟨"11111111-2222-3333-4444-555555555555", "a@x.com",
         some ⟨some "bob", none, none, none⟩⟩ 3).result =
      .error (.uniqueViolation .emailCol) ∧
    "zzz" ∉ (handle_new_user
        ⟨[⟨0, "other", "zzz", "a@x.com", none, 0, 0⟩], 1⟩
        ⟨"11111111-2222-3333-4444-555555555555", "a@x.com",
         some ⟨some "bob", none, none, none⟩⟩ 3).loopAttempts := by
  decide

/-- Claim C3 amended: `handle_new_user`'s `EXCEPTION WHEN unique_violation`
handler does not distinguish columns: a uniqueness violation on ANY column
(subject id and email included) is retried like a username collision, and a
uniqueness violation reaches the caller only after all 10 loop attempts and
the final fallback insert have failed. -/
theorem C3_amended_any_unique_violation_retried (s : Store) (nu : AuthUser)
    (now : Nat) (col : UniqueCol)
    (h : (handle_new_user s nu now).result = .error (.uniqueViolation col)) :
    (handle_new_user s nu now).fallbackAttempt.isSome = true ∧
    (handle_new_user s nu now).loopAttempts.length = maxAttempts := by
  simp only [handle_new_user] at h ⊢
  have h1 := triggerLoop_unique_error_fallback s.rows s.nextId nu.id nu.email
    (triggerSeed nu) (splitPart nu.email '@' 1)
    (nu.meta.bind fun m => nullifTrim m.first_name)
    (nu.meta.bind fun m => nullifTrim m.last_name) now col maxAttempts
    (nu.meta.bind fun m => nullifTrim m.full_name) 0 h
  have h2 := triggerLoop_fallback_exhausts s.rows s.nextId nu.id nu.email
    (triggerSeed nu) (splitPart nu.email '@' 1)
    (nu.meta.bind fun m => nullifTrim m.first_name)
    (nu.meta.bind fun m => nullifTrim m.last_name) now maxAttempts
    (nu.meta.bind fun m => nullifTrim m.full_name) 0 (Nat.zero_add _) h1
  exact ⟨h1, h2⟩

/-- Witness for the amended C3, at the email-collision scenario of the
counterexample (column = email). -/
theorem C3_amended_any_unique_violation_retried_witness :
    (handle_new_user
        ⟨[⟨0, "other", "zzz", "a@x.com", none, 0, 0⟩], 1⟩
        ⟨"11111111-2222-3333-4444-555555555555", "a@x.com",
         some ⟨some "bob", none, none, none⟩⟩ 3).fallbackAttempt.isSome = true ∧
    (handle_new_user
        ⟨[⟨0, "other", "zzz", "a@x.com", none, 0, 0⟩], 1⟩
        ⟨"11111111-2222-3333-4444-555555555555", "a@x.com",
         some ⟨some "bob", none, none, none⟩⟩ 3).loopAttempts.length = maxAttempts :=
  C3_amended_any_unique_violation_retried
    ⟨[⟨0, "other", "zzz", "a@x.com", none, 0, 0⟩], 1⟩
    ⟨"11111111-2222-3333-4444-555555555555", "a@x.com",
     some ⟨some "bob", none, none, none⟩⟩ 3 .emailCol (by decide)

/-- Claim C2 counterexample: ten stored usernames exhaust the loop (`bob` and
`bob-11111111-1` … `bob-11111111-9`), so the final unconditional insert is
made.  Its username is `a-11111111222233334444555555555555` — the email
local part, a hyphen, then the id with hyphens stripped — whereas the claim
asserts the plain concatenation `a11111111222233334444555555555555` of the
local part with the stripped id, which is NOT the inserted value. -/
theorem C2_counterexample :
    (handle_new_user
        ⟨[⟨0, "a0", "bob", "e0@x.com", none, 0, 0⟩,
          ⟨1, "a1", "bob-11111111-1", "e1@x.com", none, 0, 0⟩,
          ⟨2, "a2", "bob-11111111-2", "e2@x.com", none, 0, 0⟩,
          ⟨3, "a3", "bob-11111111-3", "e3@x.com", none, 0, 0⟩,
          ⟨4, "a4", "bob-11111111-4", "e4@x.com", none, 0, 0⟩,
          ⟨5, "a5", "bob-11111111-5", "e5@x.com", none, 0, 0⟩,
          ⟨6, "a6", "bob-11111111-6", "e6@x.com", none, 0, 0⟩,
          ⟨7, "a7", "bob-11111111-7", "e7@x.com", none, 0, 0⟩,
          ⟨8, "a8", "bob-11111111-8", "e8@x.com", none, 0, 0⟩,
          ⟨9, "a9", "bob-11111111-9", "e9@x.com", none, 0, 0⟩], 10⟩
        ⟨"11111111-2222-3333-4444-555555555555", "a@x.com",
         some ⟨some "bob", none, none, none⟩⟩ 3).fallbackAttempt =
      some "a-11111111222233334444555555555555" ∧
    ((handle_new_user
        ⟨[⟨0, "a0", "bob", "e0@x.com", none, 0, 0⟩,
          ⟨1, "a1", "bob-11111111-1", "e1@x.com", none, 0, 0⟩,
          ⟨2, "a2", "bob-11111111-2", "e2@x.com", none, 0, 0⟩,
          ⟨3, "a3", "bob-11111111-3", "e3@x.com", none, 0, 0⟩,
          ⟨4, "a4", "bob-11111111-4", "e4@x.com", none, 0, 0⟩,
          ⟨5, "a5", "bob-11111111-5", "e5@x.com", none, 0, 0⟩,
          ⟨6, "a6", "bob-11111111-6", "e6@x.com", none, 0, 0⟩,
          ⟨7, "a7", "bob-11111111-7", "e7@x.com", none, 0, 0⟩,
          ⟨8, "a8", "bob-11111111-8", "e8@x.com", none, 0, 0⟩,
          ⟨9, "a9", "bob-11111111-9", "e9@x.com", none, 0, 0⟩], 10⟩
        ⟨"11111111-2222-3333-4444-555555555555", "a@x.com",
         some ⟨some "bob", none, none, none⟩⟩ 3).result.toOption.map
      fun st => st.rows.any fun r =>
        r.username == "a-11111111222233334444555555555555") = some true ∧
    splitPart "a@x.com" '@' 1 ++
        stripHyphens "11111111-2222-3333-4444-555555555555" =
      "a11111111222233334444555555555555" ∧
    "a-11111111222233334444555555555555" ≠
      "a11111111222233334444555555555555" := by
  decide

/-- Claim C2 amended: when the seeded username collides, the first retry's
candidate is the seed plus `'-' || first 8 chars of NEW.id || '-' || 1`
(as claimed); the final unconditional insert happens exactly when the 10
bounded attempts are exhausted, and its username is the email local part
and the hyphen-stripped NEW.id joined BY A HYPHEN (the claim omitted that
separator). -/
theorem C2_amended_retry_and_fallback_usernames (s : Store) (nu : AuthUser)
    (now : Nat) :
    (2 ≤ (handle_new_user s nu now).loopAttempts.length →
      (handle_new_user s nu now).loopAttempts[1]? =
        some (triggerSeed nu ++ usernameSuffix nu.id 1)) ∧
    (∀ u, (handle_new_user s nu now).fallbackAttempt = some u →
      u = splitPart nu.email '@' 1 ++ "-" ++ stripHyphens nu.id) ∧
    ((handle_new_user s nu now).fallbackAttempt.isSome = true →
      (handle_new_user s nu now).loopAttempts.length = maxAttempts) := by
  simp only [handle_new_user]
  refine ⟨?_, ?_, ?_⟩
  · intro h2
    exact triggerLoop_second_attempt s.rows s.nextId nu.id nu.email (triggerSeed nu)
      (splitPart nu.email '@' 1)
      (nu.meta.bind fun m => nullifTrim m.first_name)
      (nu.meta.bind fun m => nullifTrim m.last_name) now 8
      (nu.meta.bind fun m => nullifTrim m.full_name) h2
  · intro u hu
    exact triggerLoop_fallback_name s.rows s.nextId nu.id nu.email (triggerSeed nu)
      (splitPart nu.email '@' 1)
      (nu.meta.bind fun m => nullifTrim m.first_name)
      (nu.meta.bind fun m => nullifTrim m.last_name) now maxAttempts
      (nu.meta.bind fun m => nullifTrim m.full_name) 0 u hu
  · intro hsome
    exact triggerLoop_fallback_exhausts s.rows s.nextId nu.id nu.email
      (triggerSeed nu) (splitPart nu.email '@' 1)
      (nu.meta.bind fun m => nullifTrim m.first_name)
      (nu.meta.bind fun m => nullifTrim m.last_name) now maxAttempts
      (nu.meta.bind fun m => nullifTrim m.full_name) 0 (Nat.zero_add _) hsome

/-- Witness for the amended C2, at the exhaustion scenario of the
counterexample: the second attempt used `bob-11111111-1`, the fallback
username equals the hyphen-joined formula, and the loop ran all 10
attempts. -/
theorem C2_amended_retry_and_fallback_usernames_witness :
    (handle_new_user
        ⟨[⟨0, "a0", "bob", "e0@x.com", none, 0, 0⟩,
          ⟨1, "a1", "bob-11111111-1", "e1@x.com", none, 0, 0⟩,
          ⟨2, "a2", "bob-11111111-2", "e2@x.com", none, 0, 0⟩,
          ⟨3, "a3", "bob-11111111-3", "e3@x.com", none, 0, 0⟩,
          ⟨4, "a4", "bob-11111111-4", "e4@x.com", none, 0, 0⟩,
          ⟨5, "a5", "bob-11111111-5", "e5@x.com", none, 0, 0⟩,
          ⟨6, "a6", "bob-11111111-6", "e6@x.com", none, 0, 0⟩,
          ⟨7, "a7", "bob-11111111-7", "e7@x.com", none, 0, 0⟩,
          ⟨8, "a8", "bob-11111111-8", "e8@x.com", none, 0, 0⟩,
          ⟨9, "a9", "bob-11111111-9", "e9@x.com", none, 0, 0⟩], 10⟩
        ⟨"11111111-2222-3333-4444-555555555555", "a@x.com",
         some ⟨some "bob", none, none, none⟩⟩ 3).loopAttempts[1]? =
      some "bob-11111111-1" ∧
    "a-11111111222233334444555555555555" =
      splitPart "a@x.com" '@' 1 ++ "-" ++
        stripHyphens "11111111-2222-3333-4444-555555555555" ∧
    (handle_new_user
        ⟨[⟨0, "a0", "bob", "e0@x.com", none, 0, 0⟩,
          ⟨1, "a1", "bob-11111111-1", "e1@x.com", none, 0, 0⟩,
          ⟨2, "a2", "bob-11111111-2", "e2@x.com", none, 0, 0⟩,
          ⟨3, "a3", "bob-11111111-3", "e3@x.com", none, 0, 0⟩,
          ⟨4, "a4", "bob-11111111-4", "e4@x.com", none, 0, 0⟩,
          ⟨5, "a5", "bob-11111111-5", "e5@x.com", none, 0, 0⟩,
          ⟨6, "a6", "bob-11111111-6", "e6@x.com", none, 0, 0⟩,
          ⟨7, "a7", "bob-11111111-7", "e7@x.com", none, 0, 0⟩,
          ⟨8, "a8", "bob-11111111-8", "e8@x.com", none, 0, 0⟩,
          ⟨9, "a9", "bob-11111111-9", "e9@x.com", none, 0, 0⟩], 10⟩
        ⟨"11111111-2222-3333-4444-555555555555", "a@x.com",
         some ⟨some "bob", none, none, none⟩⟩ 3).loopAttempts.length = maxAttempts :=
  ⟨(C2_amended_retry_and_fallback_usernames
      ⟨[⟨0, "a0", "bob", "e0@x.com", none, 0, 0⟩,
        ⟨1, "a1", "bob-11111111-1", "e1@x.com", none, 0, 0⟩,
        ⟨2, "a2", "bob-11111111-2", "e2@x.com", none, 0, 0⟩,
        ⟨3, "a3", "bob-11111111-3", "e3@x.com", none, 0, 0⟩,
        ⟨4, "a4", "bob-11111111-4", "e4@x.com", none, 0, 0⟩,
        ⟨5, "a5", "bob-11111111-5", "e5@x.com", none, 0, 0⟩,
        ⟨6, "a6", "bob-11111111-6", "e6@x.com", none, 0, 0⟩,
        ⟨7, "a7", "bob-11111111-7", "e7@x.com", none, 0, 0⟩,
        ⟨8, "a8", "bob-11111111-8", "e8@x.com", none, 0, 0⟩,
        ⟨9, "a9", "bob-11111111-9", "e9@x.com", none, 0, 0⟩], 10⟩
      ⟨"11111111-2222-3333-4444-555555555555", "a@x.com",
       some ⟨some "bob", none, none, none⟩⟩ 3).1 (by decide),
   ((C2_amended_retry_and_fallback_usernames
      ⟨[⟨0, "a0", "bob", "e0@x.com", none, 0, 0⟩,
        ⟨1, "a1", "bob-11111111-1", "e1@x.com", none, 0, 0⟩,
        ⟨2, "a2", "bob-11111111-2", "e2@x.com", none, 0, 0⟩,
        ⟨3, "a3", "bob-11111111-3", "e3@x.com", none, 0, 0⟩,
        ⟨4, "a4", "bob-11111111-4", "e4@x.com", none, 0, 0⟩,
        ⟨5, "a5", "bob-11111111-5", "e5@x.com", none, 0, 0⟩,
        ⟨6, "a6", "bob-11111111-6", "e6@x.com", none, 0, 0⟩,
        ⟨7, "a7", "bob-11111111-7", "e7@x.com", none, 0, 0⟩,
        ⟨8, "a8", "bob-11111111-8", "e8@x.com", none, 0, 0⟩,
        ⟨9, "a9", "bob-11111111-9", "e9@x.com", none, 0, 0⟩], 10⟩
      ⟨"11111111-2222-3333-4444-555555555555", "a@x.com",
       some ⟨some "bob", none, none, none⟩⟩ 3).2.1
      "a-11111111222233334444555555555555" (by decide)),
   ((C2_amended_retry_and_fallback_usernames
      ⟨[⟨0, "a0", "bob", "e0@x.com", none, 0, 0⟩,
        ⟨1, "a1", "bob-11111111-1", "e1@x.com", none, 0, 0⟩,
        ⟨2, "a2", "bob-11111111-2", "e2@x.com", none, 0, 0⟩,
        ⟨3, "a3", "bob-11111111-3", "e3@x.com", none, 0, 0⟩,
        ⟨4, "a4", "bob-11111111-4", "e4@x.com", none, 0, 0⟩,
        ⟨5, "a5", "bob-11111111-5", "e5@x.com", none, 0, 0⟩,
        ⟨6, "a6", "bob-11111111-6", "e6@x.com", none, 0, 0⟩,
        ⟨7, "a7", "bob-11111111-7", "e7@x.com", none, 0, 0⟩,
        ⟨8, "a8", "bob-11111111-8", "e8@x.com", none, 0, 0⟩,
        ⟨9, "a9", "bob-11111111-9", "e9@x.com", none, 0, 0⟩], 10⟩
      ⟨"11111111-2222-3333-4444-555555555555", "a@x.com",
       some ⟨some "bob", none, none, none⟩⟩ 3).2.2 (by decide))⟩

/-- Claim C5 counterexample: claims carrying only a last name (`family_name =
"Doe"`) and an email.  The claim's precedence chain says `displayName` is
the last name alone (`"Doe"`); `get_or_create_user_profile` has no
last-name-alone branch and stores the email local part `"jane"` instead. -/
theorem C5_counterexample :
    get_or_create_user_profile ⟨[], 0⟩ "sub_9"
      ⟨some "jane@x.com", none, some "Doe", none⟩ (fun _ => 0) 0 =
    .ok (⟨0, "sub_9", "jane", "jane@x.com", some "jane", 0, 0⟩,
         ⟨[⟨0, "sub_9", "jane", "jane@x.com", some "jane", 0, 0⟩], 1⟩) ∧
    starkFullName ⟨some "jane@x.com", none, some "Doe", none⟩ = some "jane" ∧
    "jane" ≠ "Doe" := by
  decide

/-- Claim C5 amended: the display-name precedence differs between the two
provisioners.  `get_or_create_user_profile` uses: `name` when non-null and
non-empty; else `given_name || ' ' || family_name` when both are non-null;
else `given_name` alone; else the local part of the email claim (NULL when
there is no email claim) — with NO `family_name`-alone branch.
`handle_new_user` uses the claimed chain in full: `full_name`; else
first+last; else first; else last ALONE; else the email local part. -/
theorem C5_amended_displayName_precedence (jwt : JwtClaims)
    (fn first last : Option String) (el : String) :
    ((jwt.name ≠ none ∧ jwt.name ≠ some "") → starkFullName jwt = jwt.name) ∧
    ((jwt.name = none ∨ jwt.name = some "") → ∀ f l, jwt.given_name = some f →
      jwt.family_name = some l → starkFullName jwt = some (f ++ " " ++ l)) ∧
    ((jwt.name = none ∨ jwt.name = some "") → ∀ f, jwt.given_name = some f →
      jwt.family_name = none → starkFullName jwt = some f) ∧
    ((jwt.name = none ∨ jwt.name = some "") → jwt.given_name = none →
      starkFullName jwt = jwt.email.map fun e => splitPart e '@' 1) ∧
    (∀ v, fn = some v → triggerFullName fn first last el = some v) ∧
    (fn = none → ∀ f l, first = some f → last = some l →
      triggerFullName fn first last el = some (f ++ " " ++ l)) ∧
    (fn = none → ∀ f, first = some f → last = none →
      triggerFullName fn first last el = some f) ∧
    (fn = none → first = none → ∀ l, last = some l →
      triggerFullName fn first last el = some l) ∧
    (fn = none → first = none → last = none →
      triggerFullName fn first last el = some el) := by
  refine ⟨?_, ?_, ?_, ?_, ?_, ?_, ?_, ?_, ?_⟩
  · intro h
    rw [starkFullName, if_neg (by tauto)]
  · intro h f l hf hl
    rw [starkFullName, if_pos h, hf, hl]
  · intro h f hf hl
    rw [starkFullName, if_pos h, hf, hl]
  · intro h hg
    rw [starkFullName, if_pos h, hg]
  · intro v hv
    subst hv
    rfl
  · intro h f l hf hl
    subst h
    subst hf
    subst hl
    rfl
  · intro h f hf hl
    subst h
    subst hf
    subst hl
    rfl
  · intro h hf l hl
    subst h
    subst hf
    subst hl
    rfl
  · intro h hf hl
    subst h
    subst hf
    subst hl
    rfl

/-- Witness for the amended C5: every branch of both precedence chains,
evaluated at concrete claims. -/
theorem C5_amended_displayName_precedence_witness :
    starkFullName ⟨some "e@x.com", none, none, some "Jane Doe"⟩ = some "Jane Doe" ∧
    starkFullName ⟨none, some "Jane", some "Doe", none⟩ = some ("Jane" ++ " " ++ "Doe") ∧
    starkFullName ⟨none, some "Jane", none, none⟩ = some "Jane" ∧
    starkFullName ⟨some "jane@x.com", none, some "Doe", none⟩ =
      (some "jane@x.com").map (fun e => splitPart e '@' 1) ∧
    triggerFullName (some "Full Name") (some "F") (some "L") "el" = some "Full Name" ∧
    triggerFullName none (some "F") (some "L") "el" = some ("F" ++ " " ++ "L") ∧
    triggerFullName none (some "F") none "el" = some "F" ∧
    triggerFullName none none (some "L") "el" = some "L" ∧
    triggerFullName none none none "el" = some "el" :=
  ⟨(C5_amended_displayName_precedence ⟨some "e@x.com", none, none, some "Jane Doe"⟩
      none none none "").1 (by decide),
   (C5_amended_displayName_precedence ⟨none, some "Jane", some "Doe", none⟩
      none none none "").2.1 (Or.inl rfl) "Jane" "Doe" rfl rfl,
   (C5_amended_displayName_precedence ⟨none, some "Jane", none, none⟩
      none none none "").2.2.1 (Or.inl rfl) "Jane" rfl rfl,
   (C5_amended_displayName_precedence ⟨some "jane@x.com", none, some "Doe", none⟩
      none none none "").2.2.2.1 (Or.inl rfl) rfl,
   (C5_amended_displayName_precedence ⟨none, none, none, none⟩
      (some "Full Name") (some "F") (some "L") "el").2.2.2.2.1 "Full Name" rfl,
   (C5_amended_displayName_precedence ⟨none, none, none, none⟩
      none (some "F") (some "L") "el").2.2.2.2.2.1 rfl "F" "L" rfl rfl,
   (C5_amended_displayName_precedence ⟨none, none, none, none⟩
      none (some "F") none "el").2.2.2.2.2.2.1 rfl "F" rfl rfl,
   (C5_amended_displayName_precedence ⟨none, none, none, none⟩
      none none (some "L") "el").2.2.2.2.2.2.2.1 rfl rfl "L" rfl,
   (C5_amended_displayName_precedence ⟨none, none, none, none⟩
      none none none "el").2.2.2.2.2.2.2.2 rfl rfl rfl⟩

/-- Claim C6 counterexample: claims `{name: "Jane Doe", email: "jane@x.com"}`
with no username claim.  The claim says the seed is then the email local
part `"jane"`; `get_or_create_user_profile` instead seeds from the derived
display name — `lower(replace('Jane Doe', ' ', '_')) = "jane_doe"` — and
that is the username it stores. -/
theorem C6_counterexample :
    get_or_create_user_profile ⟨[], 0⟩ "sub_1"
      ⟨some "jane@x.com", none, none, some "Jane Doe"⟩ (fun _ => 0) 5 =
    .ok (⟨0, "sub_1", "jane_doe", "jane@x.com", some "Jane Doe", 5, 5⟩,
         ⟨[⟨0, "sub_1", "jane_doe", "jane@x.com", some "Jane Doe", 5, 5⟩], 1⟩) ∧
    starkSeed ⟨some "jane@x.com", none, none, some "Jane Doe"⟩ = some "jane_doe" ∧
    splitPart "jane@x.com" '@' 1 = "jane" ∧
    "jane_doe" ≠ "jane" := by
  decide

/-- Claim C6 amended: the username seeds differ between the two provisioners.
`handle_new_user` follows the claim: the trimmed `username` claim when
present (empty/whitespace-only counting as absent), else the email local
part.  `get_or_create_user_profile` reads no username claim at all: its
seed is `lower(replace(displayName, ' ', '_'))`, falling back to the email
local part (inside the COALESCE) only when the derived display name is
NULL. -/
theorem C6_amended_username_seed (nu : AuthUser) (jwt : JwtClaims) :
    (∀ u, (nu.meta.bind fun m => nullifTrim m.username) = some u →
      triggerSeed nu = u) ∧
    ((nu.meta.bind fun m => nullifTrim m.username) = none →
      triggerSeed nu = splitPart nu.email '@' 1) ∧
    (∀ d, starkFullName jwt = some d →
      starkSeed jwt = some (lowerStr (underscoreSpaces d))) ∧
    (starkFullName jwt = none →
      starkSeed jwt = jwt.email.map fun e =>
        lowerStr (underscoreSpaces (splitPart e '@' 1))) := by
  refine ⟨?_, ?_, ?_, ?_⟩
  · intro u hu
    rw [triggerSeed, hu]
    rfl
  · intro hu
    rw [triggerSeed, hu]
    rfl
  · intro d hd
    rw [starkSeed, hd]
    rfl
  · intro hd
    rw [starkSeed, hd]
    cases jwt.email <;> rfl

/-- Witness for the amended C6: both trigger branches (username claim
present after trimming / absent) and both stark branches (display name
derived / NULL). -/
theorem C6_amended_username_seed_witness :
    triggerSeed ⟨"id-1", "a@x.com", some ⟨some " bob ", none, none, none⟩⟩ = "bob" ∧
    triggerSeed ⟨"id-1", "a@x.com", none⟩ = splitPart "a@x.com" '@' 1 ∧
    starkSeed ⟨some "jane@x.com", none, none, some "Jane Doe"⟩ =
      some (lowerStr (underscoreSpaces "Jane Doe")) ∧
    starkSeed ⟨none, none, some "Doe", none⟩ = none :=
  ⟨(C6_amended_username_seed ⟨"id-1", "a@x.com", some ⟨some " bob ", none, none, none⟩⟩
      ⟨none, none, none, none⟩).1 "bob" (by decide),
   (C6_amended_username_seed ⟨"id-1", "a@x.com", none⟩
      ⟨none, none, none, none⟩).2.1 rfl,
   (C6_amended_username_seed ⟨"id-1", "a@x.com", none⟩
      ⟨some "jane@x.com", none, none, some "Jane Doe"⟩).2.2.1 "Jane Doe" (by decide),
   (C6_amended_username_seed ⟨"id-1", "a@x.com", none⟩
      ⟨none, none, some "Doe", none⟩).2.2.2 (by decide)⟩

/-- Claim C10: the client wrapper `getUserProfile` never lets an exception
escape: for every RPC outcome the result is a normal return (`Except.ok`);
a thrown exception maps to `null`, an RPC-level error maps to `null`, and a
clean response passes `data` through. -/
theorem C10_getUserProfile_never_throws :
    (∀ r : RpcOutcome, ∃ v, getUserProfile r = .ok v) ∧
    (∀ e : String, getUserProfile (.error e) = .ok none) ∧
    (∀ d : Option TsUser, getUserProfile (.ok (d, true)) = .ok none) ∧
    (∀ d : Option TsUser, getUserProfile (.ok (d, false)) = .ok d) := by
  refine ⟨fun r => ?_, fun e => rfl, fun d => rfl, fun d => rfl⟩
  match r with
  | .error e => exact ⟨none, rfl⟩
  | .ok (d, true) => exact ⟨none, rfl⟩
  | .ok (d, false) => exact ⟨d, rfl⟩

end Provision
